import Mathlib

/-!
Verification of the FD Clarity fixed-deposit calculator.

The embedding follows `src/components/fd-calculator.tsx` and
`src/ai/flows/explain-fd-results.ts`:

* form inputs are modelled as rationals (the form fields hold finite
  decimal numbers), the computed amounts as real numbers, and
  `Math.pow` as `Real.rpow`;
* the zod `formSchema` becomes the decidable predicate `formValidate`;
* the `onSubmit` handler becomes explicit state passing on
  `ComponentState`, with the single `await explainFDResults(...)`
  suspension point represented by a `CollabOutcome` parameter that says
  whether the collaborator call succeeded or threw;
* the submit button's `disabled={isLoading}` guard becomes the `step`
  function on user events, which refuses a submit while `isLoading`.
-/

namespace FDClarity

/-- The `compoundingFrequency` enum of the zod form schema
(`"Annually" | "Semi-annually" | "Quarterly" | "Monthly"`). -/
inductive Frequency where
  | Annually
  | SemiAnnually
  | Quarterly
  | Monthly

/-- The validated form values (`FormValues` in `fd-calculator.tsx`). -/
structure FormValues where
  principal : ℚ
  tenure : ℚ
  interestRate : ℚ
  compoundingFrequency : Frequency

/-- The lookup `{Annually: 1, "Semi-annually": 2, Quarterly: 4, Monthly: 12}[compoundingFrequency] || 1`
in `onSubmit`; on the enum the lookup always succeeds, so the `|| 1`
fallback is never taken. -/
def freqN : Frequency → ℕ
  | .Annually => 1
  | .SemiAnnually => 2
  | .Quarterly => 4
  | .Monthly => 12

/-- The zod `formSchema` constraints: `principal.min(1)`,
`tenure.min(1)`, `interestRate.min(0.1).max(100)`. -/
def formValidate (d : FormValues) : Bool :=
  decide (1 ≤ d.principal) && decide (1 ≤ d.tenure) &&
    decide (0.1 ≤ d.interestRate) && decide (d.interestRate ≤ 100)

/-- The `Results` type of `fd-calculator.tsx`. -/
structure Results where
  maturityAmount : ℝ
  totalInterest : ℝ

/-- The maturity computation of `onSubmit`:
`rate = interestRate / 100; maturityAmount = principal * Math.pow(1 + rate / n, n * tenure)`. -/
noncomputable def maturityAmountOf (d : FormValues) : ℝ :=
  (d.principal : ℝ) *
    (1 + ((d.interestRate : ℝ) / 100) / (freqN d.compoundingFrequency : ℝ)) ^
      ((freqN d.compoundingFrequency : ℝ) * (d.tenure : ℝ))

/-- The `Results` record built in `onSubmit`:
`totalInterest = maturityAmount - principal`. -/
noncomputable def computeResults (d : FormValues) : Results :=
  { maturityAmount := maturityAmountOf d
    totalInterest := maturityAmountOf d - (d.principal : ℝ) }

/-- The submission pipeline: `form.handleSubmit(onSubmit)` runs the zod
resolver first and only calls `onSubmit` when validation succeeds, so
invalid input produces no `Results` at all. -/
noncomputable def processSubmission (d : FormValues) : Option Results :=
  if formValidate d then some (computeResults d) else none

/-- Modelled from the spec: the compounding-period mapping
`{Annually: 1, SemiAnnually: 2, Quarterly: 4, Monthly: 12}` as the
design document states it, for comparison with the code's `freqN`. -/
def specN : Frequency → ℕ
  | .Annually => 1
  | .SemiAnnually => 2
  | .Quarterly => 4
  | .Monthly => 12

/-- Modelled from the spec: the contract formula
`maturityAmount = principal * (1 + (annualRatePercent/100)/n) ^ (n * tenureYears)`,
for comparison with the code's `maturityAmountOf`. -/
noncomputable def specMaturityAmount (d : FormValues) : ℝ :=
  (d.principal : ℝ) *
    (1 + ((d.interestRate : ℝ) / 100) / (specN d.compoundingFrequency : ℝ)) ^
      ((specN d.compoundingFrequency : ℝ) * (d.tenure : ℝ))

/-- The `ExplainFDResultsInputSchema` of `explain-fd-results.ts`: exactly
six fields, the four form values plus the two computed amounts. -/
structure ExplainFDResultsInput where
  principal : ℚ
  tenure : ℚ
  interestRate : ℚ
  compoundingFrequency : Frequency
  maturityAmount : ℝ
  totalInterest : ℝ

/-- The `ExplainFDResultsOutputSchema` of `explain-fd-results.ts`: a
single structured value with one string field. -/
structure ExplainFDResultsOutput where
  explanation : String

/-- The request payload built in `onSubmit` and passed to
`explainFDResults`: every field is forwarded verbatim. -/
def buildRequest (d : FormValues) (r : Results) : ExplainFDResultsInput :=
  { principal := d.principal
    tenure := d.tenure
    interestRate := d.interestRate
    compoundingFrequency := d.compoundingFrequency
    maturityAmount := r.maturityAmount
    totalInterest := r.totalInterest }

/-- The outcome of the awaited collaborator call: either a schema-valid
response, or a thrown failure (network error, malformed or null output
from `explainFDResultsFlow`, timeout) caught by `onSubmit`'s `catch`. -/
inductive CollabOutcome where
  | success (output : ExplainFDResultsOutput)
  | failure

/-- The fixed fallback string set in `onSubmit`'s `catch` branch. -/
def fallbackMessage : String :=
  "Could not generate an explanation at this time. Please try again later."

/-- What `setExplanation` receives after the `try`/`catch`: the
response's single string field on success, the fallback on failure. -/
def explanationFor : CollabOutcome → String
  | .success o => o.explanation
  | .failure => fallbackMessage

/-- The three `useState` hooks of the component:
`results`, `explanation`, `isLoading`. -/
structure ComponentState where
  results : Option Results
  explanation : Option String
  isLoading : Bool

/-- The synchronous phase of `onSubmit`, up to the `await`:
`setIsLoading(true); setResults(null); setExplanation(null)`, then the
computation and `setResults({maturityAmount, totalInterest})`. The prior
state is overwritten wholesale and never read. -/
noncomputable def submitStart (_s : ComponentState) (d : FormValues) : ComponentState :=
  { results := some (computeResults d)
    explanation := none
    isLoading := true }

/-- The resumption after the `await`: `setExplanation(...)` in `try` or
`catch`, then `setIsLoading(false)` in `finally`. `results` is not
touched. -/
def submitResolve (s : ComponentState) (o : CollabOutcome) : ComponentState :=
  { s with explanation := some (explanationFor o), isLoading := false }

/-- A full run of `onSubmit` on validated data, with the collaborator
call's outcome supplied as a parameter. -/
noncomputable def onSubmitRun (s : ComponentState) (d : FormValues)
    (o : CollabOutcome) : ComponentState :=
  submitResolve (submitStart s d) o

/-- User-visible events: pressing the submit button, or the pending
collaborator call resolving. -/
inductive UEvent where
  | submit (d : FormValues)
  | resolve (o : CollabOutcome)

/-- The component's event step. The submit button carries
`disabled={isLoading}`, so a submit while a request is in flight is
refused (`none`); a resolution only applies to the in-flight request. -/
noncomputable def step (s : ComponentState) : UEvent → Option ComponentState
  | .submit d => if s.isLoading then none else some (submitStart s d)
  | .resolve o => if s.isLoading then some (submitResolve s o) else none

/-- The zod constraints, written out: the form is accepted exactly when
`principal ≥ 1`, `tenure ≥ 1` and `interestRate ∈ [0.1, 100]`. -/
lemma formValidate_iff (d : FormValues) :
    formValidate d = true ↔
      (1 ≤ d.principal ∧ 1 ≤ d.tenure ∧
        0.1 ≤ d.interestRate ∧ d.interestRate ≤ 100) := by
  simp [formValidate, and_assoc]

/-- C1: for every valid `FormValues`, the submission pipeline computes
`n` by the fixed mapping {Annually: 1, SemiAnnually: 2, Quarterly: 4,
Monthly: 12} and returns
`maturityAmount = principal * (1 + (rate/100)/n) ^ (n * tenure)` and
`totalInterest = maturityAmount - principal`, exactly the contract
formula stated by the spec (`specMaturityAmount`, `specN`). -/
theorem calculator_meets_contract (d : FormValues) (h : formValidate d = true) :
    freqN d.compoundingFrequency = specN d.compoundingFrequency ∧
      processSubmission d =
        some ⟨specMaturityAmount d, specMaturityAmount d - (d.principal : ℝ)⟩ := by
  have hn : freqN d.compoundingFrequency = specN d.compoundingFrequency := by
    cases d.compoundingFrequency <;> rfl
  have hm : maturityAmountOf d = specMaturityAmount d := by
    unfold maturityAmountOf specMaturityAmount
    cases d.compoundingFrequency <;> rfl
  refine ⟨hn, ?_⟩
  simp [processSubmission, h, computeResults, hm]

/-- C1 witness: the contract holds at the form's default values
(principal 100000, tenure 5 years, rate 6.5%, annual compounding). -/
theorem calculator_meets_contract_witness :
    freqN (FormValues.mk 100000 5 6.5 .Annually).compoundingFrequency =
        specN (FormValues.mk 100000 5 6.5 .Annually).compoundingFrequency ∧
      processSubmission ⟨100000, 5, 6.5, .Annually⟩ =
        some ⟨specMaturityAmount ⟨100000, 5, 6.5, .Annually⟩,
          specMaturityAmount ⟨100000, 5, 6.5, .Annually⟩ - ((100000 : ℚ) : ℝ)⟩ :=
  calculator_meets_contract ⟨100000, 5, 6.5, .Annually⟩ (by norm_num [formValidate])

/-- C2: for every valid input the pipeline produces a result, and that
result satisfies `totalInterest = maturityAmount - principal` exactly. -/
theorem totalInterest_identity (d : FormValues) (h : formValidate d = true) :
    processSubmission d = some (computeResults d) ∧
      (computeResults d).totalInterest =
        (computeResults d).maturityAmount - (d.principal : ℝ) := by
  exact ⟨by simp [processSubmission, h], rfl⟩

/-- C2 witness: the interest identity at principal 100000, tenure 5,
rate 6.5%, monthly compounding. -/
theorem totalInterest_identity_witness :
    processSubmission ⟨100000, 5, 6.5, .Monthly⟩ =
        some (computeResults ⟨100000, 5, 6.5, .Monthly⟩) ∧
      (computeResults ⟨100000, 5, 6.5, .Monthly⟩).totalInterest =
        (computeResults ⟨100000, 5, 6.5, .Monthly⟩).maturityAmount - ((100000 : ℚ) : ℝ) :=
  totalInterest_identity ⟨100000, 5, 6.5, .Monthly⟩ (by norm_num [formValidate])

/-- C3: validation rejects the input, and the computation never runs
(the pipeline yields no `Results`), exactly when `principal < 1`,
`tenure < 1`, or `interestRate` lies outside `[0.1, 100]`; in particular
principal 0, tenure 0, rate 0 and rate 101 are each rejected. -/
theorem validation_rejects_iff :
    (∀ d : FormValues, processSubmission d = none ↔
      (d.principal < 1 ∨ d.tenure < 1 ∨
        d.interestRate < 0.1 ∨ 100 < d.interestRate)) ∧
    processSubmission ⟨0, 5, 6.5, .Annually⟩ = none ∧
    processSubmission ⟨100000, 0, 6.5, .Annually⟩ = none ∧
    processSubmission ⟨100000, 5, 0, .Annually⟩ = none ∧
    processSubmission ⟨100000, 5, 101, .Annually⟩ = none := by
  have key : ∀ d : FormValues, processSubmission d = none ↔
      (d.principal < 1 ∨ d.tenure < 1 ∨
        d.interestRate < 0.1 ∨ 100 < d.interestRate) := by
    intro d
    unfold processSubmission
    by_cases h : formValidate d = true
    · rw [if_pos h]
      obtain ⟨h1, h2, h3, h4⟩ := (formValidate_iff d).mp h
      simp only [reduceCtorEq, false_iff, not_or, not_lt]
      exact ⟨h1, h2, h3, h4⟩
    · rw [if_neg h]
      simp only [true_iff]
      rw [formValidate_iff] at h
      by_contra hc
      push_neg at hc
      exact h ⟨hc.1, hc.2.1, hc.2.2.1, hc.2.2.2⟩
  refine ⟨key, ?_, ?_, ?_, ?_⟩
  · exact (key _).mpr (Or.inl (by norm_num))
  · exact (key _).mpr (Or.inr (Or.inl (by norm_num)))
  · exact (key _).mpr (Or.inr (Or.inr (Or.inl (by norm_num))))
  · exact (key _).mpr (Or.inr (Or.inr (Or.inr (by norm_num))))

/-- C4: whenever the collaborator call fails, the explanation the user
sees is the fixed fallback string, and `onSubmit` still completes
normally (the failure is absorbed by the `catch`, not propagated). -/
theorem failure_yields_fallback (s : ComponentState) (d : FormValues)
    (o : CollabOutcome) (h : o = CollabOutcome.failure) :
    explanationFor o = fallbackMessage ∧
      (onSubmitRun s d o).explanation = some fallbackMessage := by
  subst h
  exact ⟨rfl, rfl⟩

/-- C4 witness: the fallback string at a concrete failing run from the
initial component state. -/
theorem failure_yields_fallback_witness :
    explanationFor CollabOutcome.failure = fallbackMessage ∧
      (onSubmitRun ⟨none, none, false⟩ ⟨100000, 5, 6.5, .Annually⟩
        CollabOutcome.failure).explanation = some fallbackMessage :=
  failure_yields_fallback ⟨none, none, false⟩ ⟨100000, 5, 6.5, .Annually⟩
    CollabOutcome.failure rfl

/-- C5: for every valid submission, the final state after `onSubmit`
carries the computed results, whether the explanation call succeeded or
failed: the collaborator outcome never touches the numeric results. -/
theorem results_displayed_regardless (s : ComponentState) (d : FormValues)
    (o : CollabOutcome) (h : formValidate d = true) :
    (onSubmitRun s d o).results = some (computeResults d) := rfl

/-- C5 witness: the results survive a failing explanation call at the
default form values. -/
theorem results_displayed_regardless_witness :
    formValidate ⟨100000, 5, 6.5, .Annually⟩ = true ∧
      (onSubmitRun ⟨none, none, false⟩ ⟨100000, 5, 6.5, .Annually⟩
          CollabOutcome.failure).results =
        some (computeResults ⟨100000, 5, 6.5, .Annually⟩) :=
  ⟨by norm_num [formValidate],
    results_displayed_regardless ⟨none, none, false⟩ ⟨100000, 5, 6.5, .Annually⟩
      CollabOutcome.failure (by norm_num [formValidate])⟩

/-- C6: the calculator is deterministic: two runs of `onSubmit` on the
same form values produce the same `Results`, whatever the prior
component state of each run and whatever each explanation call returns —
the numeric computation reads no hidden state. -/
theorem calculator_deterministic (s₁ s₂ : ComponentState) (d : FormValues)
    (o₁ o₂ : CollabOutcome) :
    (onSubmitRun s₁ d o₁).results = (onSubmitRun s₂ d o₂).results ∧
      (onSubmitRun s₁ d o₁).results = some (computeResults d) :=
  ⟨rfl, rfl⟩

/-- C7: for annual compounding with tenure 1 the formula collapses to
`principal * (1 + rate/100)`; at principal 100000 and rate 6.5 the
maturity amount is exactly 106500 and total interest exactly 6500 (the
amounts the spec displays as 106500.00 and 6500.00). -/
theorem annual_one_year_formula :
    (∀ p r : ℚ, maturityAmountOf ⟨p, 1, r, .Annually⟩ =
      (p : ℝ) * (1 + (r : ℝ) / 100)) ∧
    (computeResults ⟨100000, 1, 6.5, .Annually⟩).maturityAmount = 106500 ∧
    (computeResults ⟨100000, 1, 6.5, .Annually⟩).totalInterest = 6500 := by
  refine ⟨fun p r => ?_, ?_, ?_⟩
  · unfold maturityAmountOf
    norm_num [freqN]
  · unfold computeResults maturityAmountOf
    norm_num [freqN]
  · unfold computeResults maturityAmountOf
    norm_num [freqN]

/-- C8: the request handed to the explanation collaborator is exactly
the six-field record, each field copied verbatim from the validated form
values and the computed results, and the collaborator's response type is
a single structured value with one string field. -/
theorem request_six_fields_verbatim (d : FormValues) :
    (buildRequest d (computeResults d)).principal = d.principal ∧
    (buildRequest d (computeResults d)).tenure = d.tenure ∧
    (buildRequest d (computeResults d)).interestRate = d.interestRate ∧
    (buildRequest d (computeResults d)).compoundingFrequency = d.compoundingFrequency ∧
    (buildRequest d (computeResults d)).maturityAmount = (computeResults d).maturityAmount ∧
    (buildRequest d (computeResults d)).totalInterest = (computeResults d).totalInterest ∧
    (∀ o : ExplainFDResultsOutput, o = ⟨o.explanation⟩) :=
  ⟨rfl, rfl, rfl, rfl, rfl, rfl, fun _ => rfl⟩

/-- C9: at most one submission is in flight: while `isLoading` is set
the submit button is disabled and a submit event is refused, and any
submit that does start finds `isLoading` clear and sets it — so a
pending request's late result can never race a newer submission. -/
theorem single_submission_in_flight (s : ComponentState) (d : FormValues) :
    (s.isLoading = true → step s (UEvent.submit d) = none) ∧
    (∀ s', step s (UEvent.submit d) = some s' →
      s.isLoading = false ∧ s'.isLoading = true) := by
  constructor
  · intro h
    simp [step, h]
  · intro s' h
    cases hl : s.isLoading
    · simp only [step, hl, Bool.false_eq_true, if_false] at h
      refine ⟨rfl, ?_⟩
      rw [← Option.some_inj.mp h]
      rfl
    · simp [step, hl] at h

/-- C9 witness: from a state with a request pending, a submit event is
refused. -/
theorem single_submission_in_flight_witness :
    step ⟨none, none, true⟩ (UEvent.submit ⟨100000, 5, 6.5, .Annually⟩) = none :=
  (single_submission_in_flight ⟨none, none, true⟩ ⟨100000, 5, 6.5, .Annually⟩).1 rfl

/-- C10: for every valid form input the computed maturity amount
strictly exceeds the principal, equivalently the total interest is
strictly positive. -/
theorem maturity_exceeds_principal (d : FormValues) (h : formValidate d = true) :
    (d.principal : ℝ) < (computeResults d).maturityAmount ∧
      0 < (computeResults d).totalInterest := by
  obtain ⟨h1, h2, h3, h4⟩ := (formValidate_iff d).mp h
  have hlt : (d.principal : ℝ) < (computeResults d).maturityAmount := by
    unfold computeResults maturityAmountOf
    have hp : (0 : ℝ) < (d.principal : ℝ) := by
      have : (1 : ℝ) ≤ (d.principal : ℝ) := by exact_mod_cast h1
      linarith
    have hn : (0 : ℝ) < (freqN d.compoundingFrequency : ℝ) := by
      have : (1 : ℕ) ≤ freqN d.compoundingFrequency := by
        cases d.compoundingFrequency <;> simp [freqN]
      exact_mod_cast Nat.lt_of_lt_of_le Nat.zero_lt_one this
    have hr : (0 : ℝ) < (d.interestRate : ℝ) := by
      have h01 : ((0.1 : ℚ) : ℝ) ≤ (d.interestRate : ℝ) := by exact_mod_cast h3
      norm_num at h01
      linarith
    have hbase : (1 : ℝ) <
        1 + ((d.interestRate : ℝ) / 100) / (freqN d.compoundingFrequency : ℝ) := by
      have : (0 : ℝ) <
          ((d.interestRate : ℝ) / 100) / (freqN d.compoundingFrequency : ℝ) :=
        div_pos (div_pos hr (by norm_num)) hn
      linarith
    have ht : (0 : ℝ) < (d.tenure : ℝ) := by
      have : (1 : ℝ) ≤ (d.tenure : ℝ) := by exact_mod_cast h2
      linarith
    have hexp : (0 : ℝ) < (freqN d.compoundingFrequency : ℝ) * (d.tenure : ℝ) :=
      mul_pos hn ht
    have hpow := Real.one_lt_rpow hbase hexp
    calc (d.principal : ℝ) = (d.principal : ℝ) * 1 := by ring
    _ < _ := mul_lt_mul_of_pos_left hpow hp
  exact ⟨hlt, sub_pos.mpr hlt⟩

/-- C10 witness: positive interest at principal 100000, tenure 5, rate
6.5%, quarterly compounding. -/
theorem maturity_exceeds_principal_witness :
    ((100000 : ℚ) : ℝ) < (computeResults ⟨100000, 5, 6.5, .Quarterly⟩).maturityAmount ∧
      0 < (computeResults ⟨100000, 5, 6.5, .Quarterly⟩).totalInterest :=
  maturity_exceeds_principal ⟨100000, 5, 6.5, .Quarterly⟩ (by norm_num [formValidate])

end FDClarity
